import Mathlib

/-!
Verification development for the intelligence-invoice-engine repository.

The pipeline (workflow.py, nodes.py, validator.py, main.py) is shallowly
embedded below.  Machine floats of the Python source are modelled as
rationals, byte strings as lists of naturals, Python dicts holding the
pipeline state as a structure of `Option` fields (`none` = key absent or
value `None`), and code that raises as `Except String`.  External
collaborators (pandas extraction, the langchain splitter, the Chroma
similarity index, the Groq reasoning oracle, hashlib md5, float
rendering) are parameters collected in `Externals`, so theorems quantify
over every behaviour those collaborators may exhibit.
-/

namespace InvoiceEngine

/-- Python truthiness of an optional string (`None` and `""` are falsy). -/
def pyTruthy (o : Option String) : Bool :=
  match o with
  | none => false
  | some s => !(s == "")

/-- Does `pat` occur as a contiguous run inside `l`? -/
def hasInfix (pat : List Char) : List Char → Bool
  | [] => pat.isEmpty
  | c :: rest => pat.isPrefixOf (c :: rest) || hasInfix pat rest

/-- Substring test, modelling Python's `pat in s`. -/
def strContains (s pat : String) : Bool :=
  hasInfix pat.toList s.toList

/-- Whitespace characters stripped by Python's `str.strip()` (ASCII set;
none of the strings the engine manipulates contain the unicode extras). -/
def isPySpace (c : Char) : Bool :=
  c == ' ' || c == '\t' || c == '\n' || c == '\r' ||
  c == Char.ofNat 11 || c == Char.ofNat 12

/-- Python's `str.strip()`. -/
def pyStrip (s : String) : String :=
  ⟨((s.toList.dropWhile isPySpace).reverse.dropWhile isPySpace).reverse⟩

/-- Uppercase an ASCII letter, as Python's `str.upper()` does (the engine
compares against ASCII keywords only). -/
def asciiUpper (c : Char) : Char :=
  if 'a' ≤ c && c ≤ 'z' then Char.ofNat (c.toNat - 32) else c

/-- Python's `str.upper()`. -/
def pyUpper (s : String) : String :=
  ⟨s.toList.map asciiUpper⟩

/-- Split at every occurrence of the separator character, keeping empty
pieces — Python's `str.split(sep)` for a one-character separator. -/
def splitCharAux (sep : Char) : List Char → List Char → List (List Char)
  | [], acc => [acc.reverse]
  | c :: rest, acc =>
      if c == sep then acc.reverse :: splitCharAux sep rest []
      else splitCharAux sep rest (c :: acc)

/-- Python's `s.split(sep)` for a one-character separator; always returns
at least one piece. -/
def pySplitChar (sep : Char) (s : String) : List String :=
  (splitCharAux sep s.toList []).map (fun l => ⟨l⟩)

/-- Replace every (non-overlapping, leftmost-first) occurrence of `pat`
by `sub`, structurally recursive on a fuel bound (called with the input
length, which the scan never exceeds). -/
def replaceFuel (pat sub : List Char) : ℕ → List Char → List Char
  | 0, l => l
  | fuel + 1, l =>
      match l with
      | [] => []
      | c :: rest =>
          if pat.isPrefixOf (c :: rest) && !pat.isEmpty then
            sub ++ replaceFuel pat sub fuel ((c :: rest).drop pat.length)
          else c :: replaceFuel pat sub fuel rest

/-- Python's `s.replace(pat, sub)` for a nonempty pattern. -/
def pyReplace (s pat sub : String) : String :=
  ⟨replaceFuel pat.toList sub.toList s.toList.length s.toList⟩

/-- Python's `s in l` for a list of strings. -/
def strIn (s : String) (l : List String) : Bool :=
  l.any (fun x => s == x)

/-- `InvoiceData` from extract_invoice.py / invoicedata.py: all fields optional. -/
structure Invoice where
  invoice_number : Option String
  vendor : Option String
  vendor_code : Option String
  service : Option String
  date : Option String
  total_amount : Option String
  raw_text : Option String
deriving Repr, DecidableEq

/-- The invoice value read out of an absent `state["invoice"]` key (empty dict). -/
def emptyInvoice : Invoice :=
  ⟨none, none, none, none, none, none, none⟩

/-- Result dict of `run_all_validations` (validator.py). -/
structure Validation where
  overall_ok : Bool
  issues : List String
  fields_validated : List String
deriving Repr, DecidableEq

/-- The validation read out of an absent `state["validation"]` key
(`validation.get(k, default)` on an empty dict yields the defaults). -/
def emptyValidation : Validation :=
  ⟨false, [], []⟩

/-- validator.py, `run_all_validations`: four presence checks in fixed order,
each appending a fixed issue text when the field is falsy
(`if not invoice.get(...)`); `overall_ok = len(issues) == 0`. -/
def run_all_validations (inv : Invoice) : Validation :=
  let issues :=
    (if pyTruthy inv.invoice_number then [] else ["Missing invoice number"]) ++
    (if pyTruthy inv.vendor then [] else ["Missing vendor"]) ++
    (if pyTruthy inv.date then [] else ["Missing date"]) ++
    (if pyTruthy inv.total_amount then [] else ["Missing total amount"])
  { overall_ok := issues.length == 0
    issues := issues
    fields_validated := ["invoice_number", "vendor", "date", "total_amount"] }

/-- The validator's four required checks, in source order: issue text paired
with the field it inspects. -/
def requiredFieldChecks : List (String × (Invoice → Option String)) :=
  [("Missing invoice number", Invoice.invoice_number),
   ("Missing vendor", Invoice.vendor),
   ("Missing date", Invoice.date),
   ("Missing total amount", Invoice.total_amount)]

/-- Round to the nearest integer, ties to even — the rounding used by
Python's builtin `round`. -/
def roundHalfEven (q : ℚ) : ℤ :=
  if q - (⌊q⌋ : ℚ) < 1/2 then ⌊q⌋
  else if (1 : ℚ)/2 < q - (⌊q⌋ : ℚ) then ⌊q⌋ + 1
  else if ⌊q⌋ % 2 = 0 then ⌊q⌋ else ⌊q⌋ + 1

/-- Python's `round(q, 3)`. -/
def round3 (q : ℚ) : ℚ :=
  (roundHalfEven (q * 1000) : ℚ) / 1000

/-- Numeric value of a digit character. -/
def digitVal (c : Char) : ℕ := c.toNat - 48

/-- Value of a big-endian digit string. -/
def natOfDigits (l : List Char) : ℕ :=
  l.foldl (fun acc c => 10 * acc + digitVal c) 0

/-- A nonempty all-digit run, as a natural number. -/
def parseNatDigits (l : List Char) : Option ℕ :=
  if !l.isEmpty && l.all Char.isDigit then some (natOfDigits l) else none

/-- Split a character list at the first character satisfying `p`;
`none` in the second component when no such character occurs. -/
def splitAtChar (p : Char → Bool) : List Char → List Char × Option (List Char)
  | [] => ([], none)
  | c :: rest =>
      if p c then ([], some rest)
      else
        let (a, b) := splitAtChar p rest
        (c :: a, b)

/-- Leading sign of a numeric literal: `true` when negative, with the rest. -/
def stripSign : List Char → Bool × List Char
  | '+' :: rest => (false, rest)
  | '-' :: rest => (true, rest)
  | l => (false, l)

/-- Mantissa of a float literal: `digits`, `digits.digits`, `digits.` or
`.digits` (at least one digit overall). -/
def parseMantissa (l : List Char) : Option ℚ :=
  let (ip, rest) := splitAtChar (· == '.') l
  match rest with
  | none => (parseNatDigits ip).map (fun n => (n : ℚ))
  | some fp =>
      if ip.all Char.isDigit && fp.all Char.isDigit && (!ip.isEmpty || !fp.isEmpty)
      then some ((natOfDigits ip : ℚ) + (natOfDigits fp : ℚ) / 10 ^ fp.length)
      else none

/-- Exponent part of a float literal: optional sign then digits. -/
def parseExpPart (l : List Char) : Option ℤ :=
  let (neg, rest) := stripSign l
  (parseNatDigits rest).map (fun n => if neg then -(n : ℤ) else (n : ℤ))

/-- Python's builtin `float(s)` on finite decimal literals (optional
whitespace, sign, decimal mantissa, optional exponent); `none` when the
call would raise `ValueError`.  The special forms `inf`/`nan` (not
representable in ℚ) and digit underscores are outside the model — no
string the repository's extractor can produce uses them. -/
def pyFloat (s : String) : Option ℚ :=
  let (neg, l) := stripSign (pyStrip s).toList
  let (mant, expPart) := splitAtChar (fun c => c == 'e' || c == 'E') l
  match parseMantissa mant with
  | none => none
  | some m =>
      match expPart with
      | none => some (if neg then -m else m)
      | some ec =>
          match parseExpPart ec with
          | none => none
          | some e => some ((if neg then -m else m) * (10 : ℚ) ^ e)

/-- A langchain `Document`: page content plus a metadata dict. -/
structure Doc where
  page_content : String
  metadata : List (String × String)
deriving Repr, DecidableEq

/-- Entry of `state["similar_invoices"]` built by similar_node. -/
structure SimilarInfo where
  content : String
  similarity_score : ℚ
  metadata : List (String × String)
deriving Repr, DecidableEq

/-- `state["duplicate_details"]` built by similar_node. -/
structure DupDetails where
  duplicate_content : String
  similarity_score : ℚ
  metadata : List (String × String)
deriving Repr, DecidableEq

/-- A retrieval hit of `build_rag_context` (rag_engine.py). -/
structure Hit where
  content : String
  metadata : List (String × String)
deriving Repr, DecidableEq

/-- `state["rag"]` as built by rag_node; the empty-text branch stores only
the hits key, modelled by `query = none`. -/
structure RagCtx where
  hits : List Hit
  query : Option String
deriving Repr, DecidableEq

/-- The mutable dict threaded through the pipeline (workflow.py).  Each
field is `none` until the owning stage writes it; `none` stands for the
key being absent (or, for duplicate_details, holding Python `None` —
every read goes through `.get`, which cannot tell the two apart). -/
structure State where
  file_bytes : Option (List ℕ)
  invoice : Option Invoice
  validation : Option Validation
  embedding_text : Option String
  chunks : Option (List Doc)
  similar_invoices : Option (List SimilarInfo)
  is_duplicate : Option Bool
  duplicate_details : Option DupDetails
  persisted_chunks : Option ℕ
  vector_doc_id : Option String
  rag : Option RagCtx
  synthesis : Option String
  next_action : Option String
  decision_reasoning : Option String
  risk_level : Option String
  risk_analysis : Option String
  requires_approval : Option Bool
  escalate_to_human : Option Bool
  escalation_reason : Option String
  priority_level : Option String
deriving Repr, DecidableEq

/-- The all-absent state. -/
def emptyState : State :=
  ⟨none, none, none, none, none, none, none, none, none, none,
   none, none, none, none, none, none, none, none, none, none⟩

/-- `run_workflow`'s initial state `{"file_bytes": file_bytes}`. -/
def initState (bs : List ℕ) : State :=
  { emptyState with file_bytes := some bs }

/-- External collaborators, quantified over in every theorem:
pandas-based extraction, the langchain splitter, the Chroma index
(query and upsert), retrieval hits, the Groq oracle (`none` models the
call raising), hashlib md5 hexdigest, and Python float rendering. -/
structure Externals where
  extract : List ℕ → Except String Invoice
  split : String → List Doc
  indexQuery : String → ℕ → List (Doc × ℚ)
  embedDocs : List Doc → ℕ
  ragHits : String → ℕ → List Hit
  genAnswer : String → List Doc → Option String
  md5hex : String → String
  fmtFloat : ℚ → String

/-- Render a Python bool inside an f-string. -/
def showBool (b : Bool) : String := if b then "True" else "False"

/-- Abridged rendering of a Python list of strings inside an f-string
(the oracle is universally quantified, so prompt rendering is immaterial
to every theorem below). -/
def showIssues (l : List String) : String :=
  "[" ++ String.intercalate ", " l ++ "]"

/-- `invoice.get(field, "N/A")` rendered in an f-string: an absent invoice
dict yields the default, a key holding `None` renders as `None`. -/
def invField (oi : Option Invoice) (f : Invoice → Option String) : String :=
  match oi with
  | none => "N/A"
  | some inv => (f inv).getD "None"

/-- nodes.py `ocr_node`: requires truthy `file_bytes`, else raises;
otherwise stores the extracted invoice. -/
def ocr_node (ext : Externals) (st : State) : Except String State :=
  match st.file_bytes with
  | none => .error "ocr_node requires file_bytes in state"
  | some bs =>
      if bs.isEmpty then .error "ocr_node requires file_bytes in state"
      else (ext.extract bs).map (fun inv => { st with invoice := some inv })

/-- nodes.py `validate_node`. -/
def validate_node (st : State) : State :=
  { st with validation := some (run_all_validations (st.invoice.getD emptyInvoice)) }

/-- The synthesized embedding text when `raw_text` is falsy:
`" ".join(filter(None, [vendor, vendor_code, service, invoice_number, total_amount]))`. -/
def embedFallbackText (inv : Invoice) : String :=
  String.intercalate " "
    (([inv.vendor, inv.vendor_code, inv.service, inv.invoice_number,
       inv.total_amount].filterMap id).filter (fun s => !(s == "")))

/-- nodes.py `embed_node`: chooses the embedding text and splits it. -/
def embed_node (ext : Externals) (st : State) : State :=
  let inv := st.invoice.getD emptyInvoice
  let text :=
    match inv.raw_text with
    | some s => if s == "" then embedFallbackText inv else s
    | none => embedFallbackText inv
  { st with embedding_text := some text, chunks := some (ext.split text) }

/-- `similarity_score = round(max(0, 1 - distance), 3)` (nodes.py 131/138). -/
def simScore (distance : ℚ) : ℚ :=
  round3 (max 0 (1 - distance))

/-- The `invoice_info` dict appended for every similarity result. -/
def mkSimilarInfo (p : Doc × ℚ) : SimilarInfo :=
  { content :=
      if p.1.page_content.toList.length > 200 then
        String.mk (p.1.page_content.toList.take 200) ++ "..."
      else p.1.page_content
    similarity_score := simScore p.2
    metadata := p.1.metadata }

/-- The `duplicate_details` dict recorded for the first sub-threshold match. -/
def mkDupDetails (p : Doc × ℚ) : DupDetails :=
  { duplicate_content := p.1.page_content
    similarity_score := simScore p.2
    metadata := p.1.metadata }

/-- The duplicate threshold 0.1 of nodes.py line 143, written as an
explicit normalized fraction so that kernel evaluation works; it equals
`1/10` (`dupThreshold_eq`). -/
def dupThreshold : ℚ := ⟨1, 10, by norm_num, by norm_num⟩

/-- The duplicate test of nodes.py line 143: `distance < 0.1`. -/
def isDupHit (p : Doc × ℚ) : Bool :=
  decide (p.2 < dupThreshold)

/-- The `for doc, distance in similar_results` loop of `similar_node`,
with the running `is_duplicate` / `duplicate_details` accumulators
(the `and not is_duplicate` guard keeps only the first hit). -/
def similarScan : List (Doc × ℚ) → Bool → Option DupDetails →
    List SimilarInfo × Bool × Option DupDetails
  | [], dup, det => ([], dup, det)
  | p :: rest, dup, det =>
      let hit := isDupHit p && !dup
      let next := similarScan rest (if hit then true else dup)
        (if hit then some (mkDupDetails p) else det)
      (mkSimilarInfo p :: next.1, next.2)

/-- nodes.py `similar_node`: empty embedding text skips the query;
otherwise the index results are scanned for duplicates. -/
def similar_node (ext : Externals) (topK : ℕ) (st : State) : State :=
  let text := st.embedding_text.getD ""
  if text == "" then
    { st with similar_invoices := some [], is_duplicate := some false,
              duplicate_details := none }
  else
    let scan := similarScan (ext.indexQuery text topK) false none
    { st with similar_invoices := some scan.1, is_duplicate := some scan.2.1,
              duplicate_details := scan.2.2 }

/-- nodes.py `persist_node`: early return on empty chunks; duplicates set
`persisted_chunks = 0` without writing, otherwise the chunks are upserted
(second component of the result = documents handed to the index); then
the doc id is derived from the invoice number, falling back to
`md5(state["embedding_text"])` — a direct key access that raises when
embedding_text is absent. -/
def persist_node (ext : Externals) (st : State) : Except String (State × List Doc) :=
  let chunks := st.chunks.getD []
  if chunks.isEmpty then .ok (st, [])
  else
    let dup := st.is_duplicate.getD false
    let st1 :=
      if dup then { st with persisted_chunks := some 0 }
      else { st with persisted_chunks := some (ext.embedDocs chunks) }
    let writes : List Doc := if dup then [] else chunks
    let num := (st.invoice.getD emptyInvoice).invoice_number
    if pyTruthy num then
      .ok ({ st1 with vector_doc_id := some ("invoice_" ++ num.getD "") }, writes)
    else
      match st.embedding_text with
      | none => .error "KeyError: embedding_text"
      | some t => .ok ({ st1 with vector_doc_id := some ("invoice_" ++ ext.md5hex t) }, writes)

/-- The four valid actions of `decision_node`. -/
def validActions : List String :=
  ["APPROVE", "MANUAL_REVIEW", "REJECT", "REQUEST_INFO"]

/-- Prompt of `decision_node` (abridged f-string rendering; the oracle is
universally quantified so the rendering is immaterial). -/
def decisionPrompt (st : State) : String :=
  let v := st.validation.getD emptyValidation
  "Analyze this invoice and decide the next action: Number: " ++
    invField st.invoice Invoice.invoice_number ++
    " Vendor: " ++ invField st.invoice Invoice.vendor ++
    " Vendor Code: " ++ invField st.invoice Invoice.vendor_code ++
    " Service: " ++ invField st.invoice Invoice.service ++
    " Amount: " ++ invField st.invoice Invoice.total_amount ++
    " Date: " ++ invField st.invoice Invoice.date ++
    " Overall OK: " ++ showBool v.overall_ok ++
    " Issues: " ++ showIssues v.issues ++
    " Duplicate Status: " ++ showBool (st.is_duplicate.getD false) ++
    " Choose ONE action. Format: ACTION: [choice] | REASON: [brief explanation]"

/-- The marker-based split of `decision_node` (nodes.py 271-278): pipe
split when both markers occur, else the safe default with the raw text
as reason. -/
def decisionParseRaw (resp : String) : String × String :=
  if strContains resp "ACTION:" && strContains resp "REASON:" then
    let parts := pySplitChar '|' resp
    (pyUpper (pyStrip (pyReplace (parts.headD "") "ACTION:" "")),
     if parts.length > 1 then pyStrip (pyReplace (parts.getD 1 "") "REASON:" "")
     else "No reason provided")
  else ("MANUAL_REVIEW", resp)

/-- The full parse of `decision_node` (nodes.py 271-283): an action
outside the valid four becomes MANUAL_REVIEW, keeping the parsed reason. -/
def decisionParse (resp : String) : String × String :=
  let pr := decisionParseRaw resp
  (if strIn pr.1 validActions then pr.1 else "MANUAL_REVIEW", pr.2)

/-- nodes.py `decision_node`: oracle path parses the response, the
exception path applies the deterministic fallback (duplicate → REJECT,
validation failure → MANUAL_REVIEW, else APPROVE). -/
def decision_node (ext : Externals) (st : State) : State :=
  match ext.genAnswer (decisionPrompt st) [] with
  | some resp =>
      let p := decisionParse resp
      { st with next_action := some p.1, decision_reasoning := some p.2 }
  | none =>
      if st.is_duplicate.getD false then
        { st with next_action := some "REJECT",
                  decision_reasoning := some "Duplicate invoice detected" }
      else if !(st.validation.getD emptyValidation).overall_ok then
        { st with next_action := some "MANUAL_REVIEW",
                  decision_reasoning := some "Validation issues found" }
      else
        { st with next_action := some "APPROVE",
                  decision_reasoning := some "All checks passed" }

/-- The amount extraction of `risk_assessment_node` (nodes.py 314-318):
`float(amount_str.replace(",", "").replace("$", ""))` inside
try/except with fallback 0.  An absent invoice dict defaults the string
to "0"; a `total_amount` holding `None` raises inside the try (no
`.replace` on `None`) and likewise yields 0. -/
def pyAmount (oi : Option Invoice) : ℚ :=
  match oi with
  | none => (pyFloat (pyReplace (pyReplace "0" "," "") "$" "")).getD 0
  | some inv =>
      match inv.total_amount with
      | none => 0
      | some s => (pyFloat (pyReplace (pyReplace s "," "") "$" "")).getD 0

/-- Prompt of `risk_assessment_node` (abridged rendering). -/
def riskPrompt (ext : Externals) (st : State) (amount : ℚ) : String :=
  "Assess the risk level for this invoice processing: Vendor: " ++
    invField st.invoice Invoice.vendor ++
    " Vendor Code: " ++ invField st.invoice Invoice.vendor_code ++
    " Service: " ++ invField st.invoice Invoice.service ++
    " Amount: $" ++ ext.fmtFloat amount ++
    " Similar invoices in system: " ++ toString (st.similar_invoices.getD []).length ++
    " Validation issues: " ++ toString (st.validation.getD emptyValidation).issues.length ++
    " Rate risk as: LOW, MEDIUM, or HIGH. Format: RISK: [level] | ANALYSIS: [detailed reasoning]"

/-- The response-parsing block of `risk_assessment_node` (nodes.py
348-364): marker-based split, secondary scan of the raw text for
HIGH/MEDIUM, and MEDIUM as the safe default for an invalid level. -/
def riskParseRaw (resp : String) : String × String :=
  if strContains resp "RISK:" && strContains resp "ANALYSIS:" then
    let parts := pySplitChar '|' resp
    (pyUpper (pyStrip (pyReplace (parts.headD "") "RISK:" "")),
     if parts.length > 1 then pyStrip (pyReplace (parts.getD 1 "") "ANALYSIS:" "")
     else resp)
  else
    (if strContains (pyUpper resp) "HIGH" then "HIGH"
     else if strContains (pyUpper resp) "MEDIUM" then "MEDIUM"
     else "LOW", resp)

/-- The risk-level validity gate (nodes.py 363-364): anything outside the
three levels becomes MEDIUM. -/
def riskParse (resp : String) : String × String :=
  let pr := riskParseRaw resp
  (if strIn pr.1 ["LOW", "MEDIUM", "HIGH"] then pr.1 else "MEDIUM", pr.2)

/-- nodes.py `risk_assessment_node`: oracle path with parse, exception
path with the deterministic thresholds on amount / issues / similar
count; `requires_approval` is derived on both paths. -/
def risk_assessment_node (ext : Externals) (st : State) : State :=
  let amount := pyAmount st.invoice
  let simCount := (st.similar_invoices.getD []).length
  let issueCount := (st.validation.getD emptyValidation).issues.length
  match ext.genAnswer (riskPrompt ext st amount) [] with
  | some resp =>
      let p := riskParse resp
      { st with risk_level := some p.1, risk_analysis := some p.2,
                requires_approval := some (strIn p.1 ["MEDIUM", "HIGH"]) }
  | none =>
      let analysis := "Fallback assessment: Amount=$" ++ ext.fmtFloat amount ++
        ", Issues=" ++ toString issueCount
      if amount > 10000 ∨ 0 < issueCount then
        { st with risk_level := some "HIGH", requires_approval := some true,
                  risk_analysis := some analysis }
      else if amount > 1000 ∨ simCount = 0 then
        { st with risk_level := some "MEDIUM", requires_approval := some true,
                  risk_analysis := some analysis }
      else
        { st with risk_level := some "LOW", requires_approval := some false,
                  risk_analysis := some analysis }

/-- Prompt of `escalation_decision_node` (abridged rendering). -/
def escalationPrompt (st : State) : String :=
  "Determine if this invoice requires human escalation: Risk Level: " ++
    st.risk_level.getD "MEDIUM" ++
    " Recommended Action: " ++ st.next_action.getD "APPROVE" ++
    " Validation Issues: " ++ showIssues (st.validation.getD emptyValidation).issues ++
    " Is Duplicate: " ++ showBool (st.is_duplicate.getD false) ++
    " Invoice Amount: " ++ invField st.invoice Invoice.total_amount ++
    " Vendor: " ++ invField st.invoice Invoice.vendor ++
    " Vendor Code: " ++ invField st.invoice Invoice.vendor_code ++
    " Service: " ++ invField st.invoice Invoice.service ++
    " Format: ESCALATE: [YES/NO] | PRIORITY: [level] | REASON: [explanation]"

/-- The response-parsing block of `escalation_decision_node` (nodes.py
430-448), returning (escalate, priority, reason): tokens parsed
independently with defaults NO / NORMAL / the raw text. -/
def escParse (resp : String) : String × String × String :=
  if strContains resp "ESCALATE:" then
    let parts := pySplitChar '|' resp
    let ep := pyUpper (pyStrip (pyReplace (parts.headD "") "ESCALATE:" ""))
    let escalate := if strContains ep "YES" then "YES" else "NO"
    let priority :=
      if parts.length > 1 && strContains (parts.getD 1 "") "PRIORITY:" then
        let pp := pyUpper (pyStrip (pyReplace (parts.getD 1 "") "PRIORITY:" ""))
        if strIn pp ["URGENT", "HIGH", "NORMAL", "LOW"] then pp else "NORMAL"
      else "NORMAL"
    let reason :=
      if parts.length > 2 && strContains (parts.getD 2 "") "REASON:" then
        pyStrip (pyReplace (parts.getD 2 "") "REASON:" "")
      else resp
    (escalate, priority, reason)
  else
    (if strContains (pyUpper resp) "YES" then "YES" else "NO", "NORMAL", resp)

/-- The deterministic OR-rule of the escalation fallback (nodes.py 457-462). -/
def escalationFallbackCond (st : State) : Bool :=
  (st.risk_level.getD "MEDIUM" == "HIGH") ||
  strIn (st.next_action.getD "APPROVE") ["REJECT", "MANUAL_REVIEW"] ||
  st.is_duplicate.getD false ||
  decide (2 < (st.validation.getD emptyValidation).issues.length)

/-- nodes.py `escalation_decision_node`: oracle path with token parsing,
exception path with the OR-rule fallback and HIGH/NORMAL priority. -/
def escalation_decision_node (ext : Externals) (st : State) : State :=
  match ext.genAnswer (escalationPrompt st) [] with
  | some resp =>
      let p := escParse resp
      { st with escalate_to_human := some (p.1 == "YES"),
                escalation_reason := some p.2.2,
                priority_level := some p.2.1 }
  | none =>
      let b := escalationFallbackCond st
      { st with escalate_to_human := some b,
                escalation_reason := some ("Fallback: Risk=" ++ st.risk_level.getD "MEDIUM" ++
                  ", Action=" ++ st.next_action.getD "APPROVE" ++
                  ", Issues=" ++ toString (st.validation.getD emptyValidation).issues.length),
                priority_level := some (if b then "HIGH" else "NORMAL") }

/-- nodes.py `rag_node`: empty text stores an empty hit list, otherwise
the retrieval context. -/
def rag_node (ext : Externals) (topK : ℕ) (st : State) : State :=
  let text := st.embedding_text.getD ""
  if text == "" then
    { st with rag := some { hits := [], query := none } }
  else
    { st with rag := some { hits := ext.ragHits text topK, query := some text } }

/-- nodes.py `synth_node`: fixed duplicate warning when duplicate evidence
exists, otherwise an oracle answer plus templated recommendation, with a
plain validation summary if the oracle raises (string renderings
abridged; no theorem depends on the synthesis text). -/
def synth_node (ext : Externals) (st : State) : State :=
  let validation := st.validation.getD emptyValidation
  let hits := (st.rag.getD { hits := [], query := none }).hits
  let isDup := st.is_duplicate.getD false
  let similar := st.similar_invoices.getD []
  let answer :=
    if isDup && st.duplicate_details.isSome then
      "DUPLICATE DETECTED: This invoice appears to be a duplicate of a previously processed invoice (similarity: " ++
        ext.fmtFloat ((st.duplicate_details.map (·.similarity_score)).getD 0) ++
        "). Recommendation: REJECT - Do not process for payment to avoid duplicate payment."
    else
      let highest := (similar.map (·.similarity_score)).foldr max 0
      let question := "Explain validation results for invoice " ++
        (match st.invoice with
         | none => "None"
         | some i => i.invoice_number.getD "None") ++
        " and recommend next steps. Include any evidence from retrieved documents. Highest similarity to existing invoices: " ++
        ext.fmtFloat highest
      match ext.genAnswer question
        (hits.map (fun h => { page_content := h.content, metadata := h.metadata })) with
      | some ans =>
          if highest > 0 then
            ans ++ " No duplicates detected (highest similarity: " ++
              ext.fmtFloat highest ++ "). Recommendation: Approve for payment."
          else ans ++ " No similar invoices found. Recommendation: Approve for payment."
      | none =>
          "Validation overall_ok=" ++ showBool validation.overall_ok ++
            ". Issues: " ++ showIssues validation.issues
  { st with synthesis := some answer }

/-- The fixed stage order of `run_workflow` (workflow.py 23-36). -/
inductive Stage where
  | ocr | validate | embed | similar | decision | risk | persist | rag | synth | escalation
deriving Repr, DecidableEq

/-- workflow.py: OCR → Validate → Embed → Similar → Decision → Risk →
Persist → RAG → Synthesis → Escalation. -/
def stageOrder : List Stage :=
  [.ocr, .validate, .embed, .similar, .decision, .risk, .persist, .rag, .synth, .escalation]

/-- One pipeline stage; the list component collects the documents handed
to the similarity index for insertion during that stage. -/
def runStage (ext : Externals) : Stage → State → Except String (State × List Doc)
  | .ocr, st =>
      match ocr_node ext st with
      | .error e => .error e
      | .ok st1 => .ok (st1, [])
  | .validate, st => .ok (validate_node st, [])
  | .embed, st => .ok (embed_node ext st, [])
  | .similar, st => .ok (similar_node ext 5 st, [])
  | .decision, st => .ok (decision_node ext st, [])
  | .risk, st => .ok (risk_assessment_node ext st, [])
  | .persist, st => persist_node ext st
  | .rag, st => .ok (rag_node ext 5 st, [])
  | .synth, st => .ok (synth_node ext st, [])
  | .escalation, st => .ok (escalation_decision_node ext st, [])

/-- Sequential stage execution, accumulating index writes; the first
uncaught exception aborts the run. -/
def runStages (ext : Externals) : List Stage → State → Except String (State × List Doc)
  | [], st => .ok (st, [])
  | s :: rest, st =>
      match runStage ext s st with
      | .error e => .error e
      | .ok (st1, w) =>
          match runStages ext rest st1 with
          | .error e => .error e
          | .ok (st2, ws) => .ok (st2, w ++ ws)

/-- workflow.py `run_workflow`: the sole entry point, taking raw bytes. -/
def run_workflow (ext : Externals) (bs : List ℕ) : Except String (State × List Doc) :=
  runStages ext stageOrder (initState bs)

/-- The JSON-serializable subset returned by `POST /process-invoice`
(main.py 97-115), with its per-key defaults. -/
structure SerializedResult where
  invoice : Invoice
  validation : Validation
  persisted_chunks : ℕ
  vector_doc_id : String
  similar_invoices : List SimilarInfo
  is_duplicate : Bool
  duplicate_details : Option DupDetails
  next_action : String
  decision_reasoning : String
  risk_level : String
  risk_analysis : String
  requires_approval : Bool
  escalate_to_human : Bool
  escalation_reason : String
  priority_level : String
  synthesis : String
deriving Repr, DecidableEq

/-- main.py `process_invoice` response construction from the final state. -/
def serializeResult (st : State) : SerializedResult :=
  { invoice := st.invoice.getD emptyInvoice
    validation := st.validation.getD emptyValidation
    persisted_chunks := st.persisted_chunks.getD 0
    vector_doc_id := st.vector_doc_id.getD ""
    similar_invoices := st.similar_invoices.getD []
    is_duplicate := st.is_duplicate.getD false
    duplicate_details := st.duplicate_details
    next_action := st.next_action.getD "APPROVE"
    decision_reasoning := st.decision_reasoning.getD ""
    risk_level := st.risk_level.getD "LOW"
    risk_analysis := st.risk_analysis.getD ""
    requires_approval := st.requires_approval.getD false
    escalate_to_human := st.escalate_to_human.getD false
    escalation_reason := st.escalation_reason.getD ""
    priority_level := st.priority_level.getD "NORMAL"
    synthesis := st.synthesis.getD "" }

lemma roundHalfEven_props (q : ℚ) :
    ((roundHalfEven q : ℚ) - 1/2 ≤ q ∧ q ≤ (roundHalfEven q : ℚ) + 1/2) ∧
    (q = (roundHalfEven q : ℚ) + 1/2 → roundHalfEven q % 2 = 0) ∧
    (q = (roundHalfEven q : ℚ) - 1/2 → roundHalfEven q % 2 = 0) := by
  have hf : (⌊q⌋ : ℚ) ≤ q := Int.floor_le q
  have hc : q < (⌊q⌋ : ℚ) + 1 := Int.lt_floor_add_one q
  unfold roundHalfEven
  split_ifs with h1 h2 h3
  · exact ⟨⟨by linarith, by linarith⟩,
      fun h => by exfalso; linarith,
      fun h => by exfalso; linarith⟩
  · push_cast
    exact ⟨⟨by linarith, by linarith⟩,
      fun h => by exfalso; linarith,
      fun h => by exfalso; linarith⟩
  · have hr : q - (⌊q⌋ : ℚ) = 1/2 := le_antisymm (not_lt.mp h2) (not_lt.mp h1)
    exact ⟨⟨by linarith, by linarith⟩, fun _ => h3, fun h => by exfalso; linarith⟩
  · have hr : q - (⌊q⌋ : ℚ) = 1/2 := le_antisymm (not_lt.mp h2) (not_lt.mp h1)
    push_cast
    refine ⟨⟨by linarith, by linarith⟩, fun h => by exfalso; linarith, fun _ => by omega⟩

lemma roundHalfEven_mono {a b : ℚ} (hab : a ≤ b) :
    roundHalfEven a ≤ roundHalfEven b := by
  by_contra hlt
  push_neg at hlt
  have hint : roundHalfEven b + 1 ≤ roundHalfEven a := hlt
  have hcast : (roundHalfEven b : ℚ) + 1 ≤ (roundHalfEven a : ℚ) := by exact_mod_cast hint
  have h1 := (roundHalfEven_props a).1.1
  have h2 := (roundHalfEven_props b).1.2
  have ha : a = (roundHalfEven a : ℚ) - 1/2 := by linarith
  have hb : b = (roundHalfEven b : ℚ) + 1/2 := by linarith
  have hra : (roundHalfEven a : ℚ) = (roundHalfEven b : ℚ) + 1 := by linarith
  have hraz : roundHalfEven a = roundHalfEven b + 1 := by exact_mod_cast hra
  have hea := (roundHalfEven_props a).2.2 ha
  have heb := (roundHalfEven_props b).2.1 hb
  omega

lemma round3_mono {a b : ℚ} (h : a ≤ b) : round3 a ≤ round3 b := by
  unfold round3
  have h1 : roundHalfEven (a * 1000) ≤ roundHalfEven (b * 1000) :=
    roundHalfEven_mono (by linarith)
  have h2 : (roundHalfEven (a * 1000) : ℚ) ≤ (roundHalfEven (b * 1000) : ℚ) := by
    exact_mod_cast h1
  linarith

lemma round3_nonneg {q : ℚ} (h : 0 ≤ q) : 0 ≤ round3 q := by
  unfold round3
  have h1 := (roundHalfEven_props (q * 1000)).1.2
  have h2 : (-1 : ℚ) < (roundHalfEven (q * 1000) : ℚ) := by linarith
  have h3 : (-1 : ℤ) < roundHalfEven (q * 1000) := by exact_mod_cast h2
  have h4 : (0 : ℚ) ≤ (roundHalfEven (q * 1000) : ℚ) := by exact_mod_cast h3
  linarith

lemma round3_le_one {q : ℚ} (h : q ≤ 1) : round3 q ≤ 1 := by
  unfold round3
  have h1 := (roundHalfEven_props (q * 1000)).1.1
  have h2 : (roundHalfEven (q * 1000) : ℚ) < 1001 := by linarith
  have h3 : roundHalfEven (q * 1000) < 1001 := by exact_mod_cast h2
  have h4 : (roundHalfEven (q * 1000) : ℚ) ≤ 1000 := by
    have : roundHalfEven (q * 1000) ≤ 1000 := by omega
    exact_mod_cast this
  linarith

lemma similarScan_fst (res : List (Doc × ℚ)) (dup : Bool) (det : Option DupDetails) :
    (similarScan res dup det).1 = res.map mkSimilarInfo := by
  induction res generalizing dup det with
  | nil => rfl
  | cons p rest ih => simp [similarScan, ih]

lemma similarScan_true (res : List (Doc × ℚ)) (det : Option DupDetails) :
    (similarScan res true det).2 = (true, det) := by
  induction res generalizing det with
  | nil => rfl
  | cons p rest ih => simp [similarScan, ih]

lemma similarScan_false_none (res : List (Doc × ℚ)) :
    (similarScan res false none).2 =
      (res.any isDupHit, (res.find? isDupHit).map mkDupDetails) := by
  induction res with
  | nil => rfl
  | cons p rest ih =>
      cases hd : isDupHit p with
      | true => simp [similarScan, hd, similarScan_true]
      | false => simp [similarScan, hd, ih]

lemma dupThreshold_eq : dupThreshold = 1/10 := by
  rw [dupThreshold, Rat.mk'_eq_divInt, Rat.divInt_eq_div]; norm_num

lemma isDupHit_iff (p : Doc × ℚ) : isDupHit p = true ↔ p.2 < 1/10 := by
  simp [isDupHit, dupThreshold_eq]

lemma isSome_of_map {α β : Type} (f : α → β) (o : Option α) :
    (o.map f).isSome = o.isSome := by
  cases o <;> rfl

lemma find?_isSome_eq_any {α : Type} (p : α → Bool) (l : List α) :
    (l.find? p).isSome = l.any p := by
  induction l with
  | nil => rfl
  | cons x xs ih => cases hp : p x <;> simp [List.find?_cons, hp, ih]

/-- A concrete external environment used to instantiate theorems with
hypotheses: one stored invoice at distance 0.05, a one-chunk splitter,
and an oracle whose call always raises. -/
def extDemo : Externals :=
  { extract := fun _ => .ok
      { emptyInvoice with
        invoice_number := some "INV-100"
        vendor := some "Acme"
        date := some "2024-01-01"
        total_amount := some "500"
        raw_text := some "sample invoice text" }
    split := fun s => [{ page_content := s, metadata := [] }]
    indexQuery := fun _ _ => [({ page_content := "stored invoice", metadata := [] }, 0)]
    embedDocs := fun l => l.length
    ragHits := fun _ _ => []
    genAnswer := fun _ _ => none
    md5hex := fun _ => "9e107d9d372bb6826bd81d3542a419d6"
    fmtFloat := fun _ => "0.00" }

/-- A concrete state holding only an embedding text. -/
def stDemo : State :=
  { emptyState with embedding_text := some "sample invoice text" }

/-- C1: for every result list returned by the similarity index on a
non-empty embedding text, `similar_node` sets `is_duplicate = true` iff
some match has distance < 0.1, `duplicate_details` is present iff
`is_duplicate` is true, and it records exactly the first qualifying
match in index order. -/
theorem similar_node_duplicate_policy (ext : Externals) (topK : ℕ) (st : State)
    (t : String) (ht : st.embedding_text = some t) (hne : t ≠ "") :
    ((similar_node ext topK st).is_duplicate = some true ↔
       ∃ p ∈ ext.indexQuery t topK, p.2 < 1/10) ∧
    ((similar_node ext topK st).duplicate_details.isSome ↔
       (similar_node ext topK st).is_duplicate = some true) ∧
    (similar_node ext topK st).duplicate_details =
      ((ext.indexQuery t topK).find? isDupHit).map mkDupDetails := by
  have hb : (t == "") = false := by
    simpa using hne
  unfold similar_node
  rw [ht]
  simp only [Option.getD_some, hb, Bool.false_eq_true, if_false,
    similarScan_false_none]
  refine ⟨?_, ?_, trivial⟩
  · simp [List.any_eq_true, isDupHit_iff]
  · rw [isSome_of_map, find?_isSome_eq_any]
    simp

/-- C1 witness: instantiation at a concrete state and index. -/
theorem similar_node_duplicate_policy_witness :
    ((similar_node extDemo 5 stDemo).is_duplicate = some true ↔
       ∃ p ∈ extDemo.indexQuery "sample invoice text" 5, p.2 < 1/10) ∧
    ((similar_node extDemo 5 stDemo).duplicate_details.isSome ↔
       (similar_node extDemo 5 stDemo).is_duplicate = some true) ∧
    (similar_node extDemo 5 stDemo).duplicate_details =
      ((extDemo.indexQuery "sample invoice text" 5).find? isDupHit).map mkDupDetails :=
  similar_node_duplicate_policy extDemo 5 stDemo "sample invoice text" rfl (by decide)

/-- C7: every recorded similarity score equals
`round(max(0, 1 - distance), 3)`, lies in [0, 1] for nonnegative
distances, and is monotonically non-increasing in the distance. -/
theorem similarity_score_spec :
    (∀ res dup det, ((similarScan res dup det).1.map SimilarInfo.similarity_score) =
        res.map (fun p => round3 (max 0 (1 - p.2)))) ∧
    (∀ d : ℚ, 0 ≤ d → 0 ≤ simScore d ∧ simScore d ≤ 1) ∧
    (∀ d₁ d₂ : ℚ, d₁ ≤ d₂ → simScore d₂ ≤ simScore d₁) := by
  refine ⟨?_, ?_, ?_⟩
  · intro res dup det
    rw [similarScan_fst, List.map_map]
    rfl
  · intro d hd
    refine ⟨round3_nonneg (le_max_left 0 (1 - d)), round3_le_one ?_⟩
    exact max_le (by norm_num) (by linarith)
  · intro d₁ d₂ h
    exact round3_mono (max_le_max le_rfl (by linarith))

/-- C7 witness: concrete instantiations of the bounded and monotone parts. -/
theorem similarity_score_spec_witness :
    (0 ≤ simScore (1/2) ∧ simScore (1/2) ≤ 1) ∧ simScore (3/10) ≤ simScore (1/10) :=
  ⟨similarity_score_spec.2.1 (1/2) (by norm_num),
   similarity_score_spec.2.2 (1/10) (3/10) (by norm_num)⟩

/-- An invoice whose invoice number is whitespace only (truthy in Python,
empty after trimming) and whose other required fields are populated. -/
def wsInvoice : Invoice :=
  { emptyInvoice with
    invoice_number := some " "
    vendor := some "Acme Corp"
    date := some "2024-01-01"
    total_amount := some "1.00" }

/-- C6 counterexample: the validator checks Python truthiness, not
"non-empty after trimming" — a whitespace-only invoice number trims to
empty yet produces no issue and `overall_ok = true`, contradicting the
claim that such a field counts as missing. -/
theorem run_all_validations_no_trim_counterexample :
    (run_all_validations wsInvoice).overall_ok = true ∧
    (run_all_validations wsInvoice).issues = [] ∧
    pyStrip (wsInvoice.invoice_number.getD "") = "" := by
  refine ⟨rfl, rfl, ?_⟩
  rfl

/-- C6 amended: presence means truthy (not `None` and not the empty
string; no trimming).  Each non-present field contributes exactly its
fixed issue text, in field-check order, and `overall_ok` holds iff the
issue list is empty; the validator is a total function. -/
theorem run_all_validations_spec (inv : Invoice) :
    (run_all_validations inv).issues =
      (requiredFieldChecks.filter (fun c => !(pyTruthy (c.2 inv)))).map Prod.fst ∧
    ((run_all_validations inv).overall_ok = true ↔
      (run_all_validations inv).issues = []) ∧
    (run_all_validations inv).fields_validated =
      ["invoice_number", "vendor", "date", "total_amount"] := by
  cases h1 : pyTruthy inv.invoice_number <;>
    cases h2 : pyTruthy inv.vendor <;>
      cases h3 : pyTruthy inv.date <;>
        cases h4 : pyTruthy inv.total_amount <;>
          simp [run_all_validations, requiredFieldChecks, h1, h2, h3, h4]

lemma strIn_iff (s : String) (l : List String) : strIn s l = true ↔ s ∈ l := by
  simp [strIn]

lemma riskParse_level (resp : String) :
    (riskParse resp).1 = "LOW" ∨ (riskParse resp).1 = "MEDIUM" ∨
      (riskParse resp).1 = "HIGH" := by
  unfold riskParse
  cases h : strIn (riskParseRaw resp).1 ["LOW", "MEDIUM", "HIGH"] with
  | false => simp [h]
  | true =>
      have hm : (riskParseRaw resp).1 ∈ ["LOW", "MEDIUM", "HIGH"] := (strIn_iff _ _).mp h
      simp only [List.mem_cons, List.mem_singleton, List.not_mem_nil, or_false] at hm
      simpa [h] using hm

/-- C4: the amount is parsed by stripping commas and dollar signs, with
"$12,500.00" ↦ 12500 and unparsable or absent amounts becoming 0 without
raising; on oracle failure the fallback rates HIGH when amount > 10000 or
any validation issue exists, else MEDIUM when amount > 1000 or no similar
invoice was found, else LOW; and on every path `requires_approval` holds
iff the risk level is not LOW. -/
theorem risk_assessment_spec :
    (pyAmount (some { emptyInvoice with total_amount := some "$12,500.00" }) = 12500) ∧
    (∀ inv : Invoice, ∀ s, inv.total_amount = some s →
       pyFloat (pyReplace (pyReplace s "," "") "$" "") = none →
       pyAmount (some inv) = 0) ∧
    (∀ inv : Invoice, inv.total_amount = none → pyAmount (some inv) = 0) ∧
    (∀ ext st, ext.genAnswer (riskPrompt ext st (pyAmount st.invoice)) [] = none →
       (risk_assessment_node ext st).risk_level = some
         (if pyAmount st.invoice > 10000 ∨
             0 < (st.validation.getD emptyValidation).issues.length then "HIGH"
          else if pyAmount st.invoice > 1000 ∨
             (st.similar_invoices.getD []).length = 0 then "MEDIUM"
          else "LOW")) ∧
    (∀ ext st, (risk_assessment_node ext st).requires_approval = some true ↔
       (risk_assessment_node ext st).risk_level ≠ some "LOW") := by
  refine ⟨?_, ?_, ?_, ?_, ?_⟩
  · have h3 : pyAmount (some { emptyInvoice with total_amount := some "$12,500.00" }) =
        (natOfDigits ['1', '2', '5', '0', '0'] : ℚ) +
          (natOfDigits ['0', '0'] : ℚ) / 10 ^ (['0', '0'] : List Char).length := rfl
    have h4 : natOfDigits ['1', '2', '5', '0', '0'] = 12500 := rfl
    have h5 : natOfDigits ['0', '0'] = 0 := rfl
    rw [h3, h4, h5]
    norm_num
  · intro inv s hs hn
    simp [pyAmount, hs, hn]
  · intro inv hs
    simp [pyAmount, hs]
  · intro ext st h
    simp only [risk_assessment_node, h]
    split_ifs <;> rfl
  · intro ext st
    simp only [risk_assessment_node]
    cases hg : ext.genAnswer (riskPrompt ext st (pyAmount st.invoice)) [] with
    | some resp =>
        rcases riskParse_level resp with h | h | h <;> simp [h, strIn]
    | none => split_ifs <;> simp

/-- C4 witness: the exception-path fallback at a concrete state and the
concrete amount parses. -/
theorem risk_assessment_spec_witness :
    (risk_assessment_node extDemo stDemo).risk_level = some
      (if pyAmount stDemo.invoice > 10000 ∨
          0 < (stDemo.validation.getD emptyValidation).issues.length then "HIGH"
       else if pyAmount stDemo.invoice > 1000 ∨
          (stDemo.similar_invoices.getD []).length = 0 then "MEDIUM"
       else "LOW") ∧
    pyAmount (some { emptyInvoice with total_amount := some "N/A" }) = 0 :=
  ⟨risk_assessment_spec.2.2.2.1 extDemo stDemo rfl,
   risk_assessment_spec.2.1 { emptyInvoice with total_amount := some "N/A" } "N/A" rfl
     (by decide)⟩

/-- C5: on oracle failure the escalation stage escalates exactly when the
risk level is HIGH, or the next action is REJECT or MANUAL_REVIEW, or the
invoice is a duplicate, or there are strictly more than two validation
issues; priority is HIGH when escalating and NORMAL otherwise. -/
theorem escalation_fallback_spec (ext : Externals) (st : State)
    (h : ext.genAnswer (escalationPrompt st) [] = none) :
    ((escalation_decision_node ext st).escalate_to_human =
       some (escalationFallbackCond st)) ∧
    (escalationFallbackCond st = true ↔
      (st.risk_level.getD "MEDIUM" = "HIGH" ∨
       st.next_action.getD "APPROVE" = "REJECT" ∨
       st.next_action.getD "APPROVE" = "MANUAL_REVIEW" ∨
       st.is_duplicate.getD false = true ∨
       2 < (st.validation.getD emptyValidation).issues.length)) ∧
    (escalation_decision_node ext st).priority_level =
      some (if escalationFallbackCond st then "HIGH" else "NORMAL") := by
  refine ⟨?_, ?_, ?_⟩
  · simp only [escalation_decision_node, h]
  · simp [escalationFallbackCond, strIn, or_assoc]
  · simp only [escalation_decision_node, h]

/-- A state reaching the escalation stage as a flagged duplicate. -/
def stEsc : State :=
  { emptyState with
    risk_level := some "LOW"
    next_action := some "APPROVE"
    is_duplicate := some true }

/-- C5 witness: instantiation at a duplicate invoice with a failing oracle. -/
theorem escalation_fallback_spec_witness :
    ((escalation_decision_node extDemo stEsc).escalate_to_human =
       some (escalationFallbackCond stEsc)) ∧
    (escalation_decision_node extDemo stEsc).priority_level =
      some (if escalationFallbackCond stEsc then "HIGH" else "NORMAL") :=
  ⟨(escalation_fallback_spec extDemo stEsc rfl).1,
   (escalation_fallback_spec extDemo stEsc rfl).2.2⟩

/-- An oracle that answers with valid markers but an invalid action. -/
def extBadAction : Externals :=
  { extDemo with genAnswer := fun _ _ => some "ACTION: FOO | REASON: bar" }

/-- C3 counterexample: for the oracle response
"ACTION: FOO | REASON: bar" (markers present, action invalid) the code
keeps the parsed reason part "bar", not the raw oracle text, as the
claim demands. -/
theorem decision_node_reason_counterexample :
    (decision_node extBadAction stDemo).next_action = some "MANUAL_REVIEW" ∧
    (decision_node extBadAction stDemo).decision_reasoning = some "bar" ∧
    "bar" ≠ "ACTION: FOO | REASON: bar" := by
  exact ⟨rfl, rfl, by decide⟩

lemma decision_node_some (ext : Externals) (st : State) (resp : String)
    (hg : ext.genAnswer (decisionPrompt st) [] = some resp) :
    decision_node ext st =
      { st with next_action := some (decisionParse resp).1,
                decision_reasoning := some (decisionParse resp).2 } := by
  simp [decision_node, hg]

lemma decision_node_none (ext : Externals) (st : State)
    (hg : ext.genAnswer (decisionPrompt st) [] = none) :
    decision_node ext st =
      if st.is_duplicate.getD false then
        { st with next_action := some "REJECT",
                  decision_reasoning := some "Duplicate invoice detected" }
      else if !(st.validation.getD emptyValidation).overall_ok then
        { st with next_action := some "MANUAL_REVIEW",
                  decision_reasoning := some "Validation issues found" }
      else
        { st with next_action := some "APPROVE",
                  decision_reasoning := some "All checks passed" } := by
  simp [decision_node, hg]

/-- C3 amended: nextAction is always one of the four valid values and a
failure is never propagated; a response lacking the ACTION:/REASON:
markers yields MANUAL_REVIEW with the raw oracle text as reason; a
response carrying the markers but an invalid parsed action yields
MANUAL_REVIEW with the parsed reason part (the text after the first
pipe with REASON: removed and stripped, or "No reason provided" when no
pipe exists) as reason; and on oracle failure the fallback yields REJECT
when duplicate, else MANUAL_REVIEW when validation failed, else APPROVE,
in that priority order. -/
theorem decision_node_spec :
    (∀ ext st, strIn ((decision_node ext st).next_action.getD "") validActions = true) ∧
    (∀ ext st resp, ext.genAnswer (decisionPrompt st) [] = some resp →
       (strContains resp "ACTION:" && strContains resp "REASON:") = false →
       (decision_node ext st).next_action = some "MANUAL_REVIEW" ∧
       (decision_node ext st).decision_reasoning = some resp) ∧
    (∀ ext st resp, ext.genAnswer (decisionPrompt st) [] = some resp →
       (strContains resp "ACTION:" && strContains resp "REASON:") = true →
       strIn (decisionParseRaw resp).1 validActions = false →
       (decision_node ext st).next_action = some "MANUAL_REVIEW" ∧
       (decision_node ext st).decision_reasoning = some (decisionParseRaw resp).2) ∧
    (∀ ext st, ext.genAnswer (decisionPrompt st) [] = none →
       (decision_node ext st).next_action = some
         (if st.is_duplicate.getD false = true then "REJECT"
          else if (st.validation.getD emptyValidation).overall_ok = false then
            "MANUAL_REVIEW"
          else "APPROVE")) := by
  refine ⟨?_, ?_, ?_, ?_⟩
  · intro ext st
    cases hg : ext.genAnswer (decisionPrompt st) [] with
    | some resp =>
        rw [decision_node_some ext st resp hg]
        show strIn (decisionParse resp).1 validActions = true
        unfold decisionParse
        cases hv : strIn (decisionParseRaw resp).1 validActions with
        | true => simpa [hv] using hv
        | false => simp [hv]; rfl
    | none =>
        rw [decision_node_none ext st hg]
        split_ifs <;> rfl
  · intro ext st resp hg hm
    rw [decision_node_some ext st resp hg]
    refine ⟨?_, ?_⟩ <;> simp [decisionParse, decisionParseRaw, hm]
  · intro ext st resp hg hm hv
    rw [decision_node_some ext st resp hg]
    refine ⟨?_, ?_⟩ <;> simp [decisionParse, hv]
  · intro ext st hg
    rw [decision_node_none ext st hg]
    cases hd : st.is_duplicate.getD false <;>
      cases hv : (st.validation.getD emptyValidation).overall_ok <;>
        simp [hd, hv]

/-- C3 witness: fallback instantiation and marker-present/invalid-action
instantiation at concrete oracles. -/
theorem decision_node_spec_witness :
    (decision_node extDemo stDemo).next_action = some
      (if stDemo.is_duplicate.getD false = true then "REJECT"
       else if (stDemo.validation.getD emptyValidation).overall_ok = false then
         "MANUAL_REVIEW"
       else "APPROVE") ∧
    ((decision_node extBadAction stDemo).next_action = some "MANUAL_REVIEW" ∧
     (decision_node extBadAction stDemo).decision_reasoning =
       some (decisionParseRaw "ACTION: FOO | REASON: bar").2) :=
  ⟨decision_node_spec.2.2.2 extDemo stDemo rfl,
   decision_node_spec.2.2.1 extBadAction stDemo "ACTION: FOO | REASON: bar" rfl
     (by decide) (by decide)⟩

lemma isEmpty_false_of_ne {α : Type} {l : List α} (h : l ≠ []) :
    l.isEmpty = false := by
  cases l with
  | nil => exact absurd rfl h
  | cons a t => rfl

/-- C10: with an empty (or absent) chunk list the persist stage returns
the state unchanged and writes nothing — `persisted_chunks` and
`vector_doc_id` stay unwritten regardless of `is_duplicate` — and the
HTTP serialization then reports the defaults 0 and "". -/
theorem persist_node_empty_chunks (ext : Externals) (st : State)
    (hch : st.chunks.getD [] = []) (hp : st.persisted_chunks = none)
    (hv : st.vector_doc_id = none) :
    persist_node ext st = .ok (st, []) ∧
    (serializeResult st).persisted_chunks = 0 ∧
    (serializeResult st).vector_doc_id = "" := by
  refine ⟨?_, by simp [serializeResult, hp], by simp [serializeResult, hv]⟩
  simp [persist_node, hch]

/-- C10 witness: instantiation at a chunk-less state flagged as duplicate. -/
theorem persist_node_empty_chunks_witness :
    persist_node extDemo stEsc = .ok (stEsc, []) ∧
    (serializeResult stEsc).persisted_chunks = 0 ∧
    (serializeResult stEsc).vector_doc_id = "" :=
  persist_node_empty_chunks extDemo stEsc rfl rfl rfl

/-- C8: the vector doc id is `invoice_<invoiceNumber>` whenever a truthy
invoice number exists (so it is determined by the number alone: equal
numbers give equal ids, different numbers give different ids), and
otherwise `invoice_<md5(embeddingText)>`, stable for identical text. -/
theorem vector_doc_id_spec :
    (∀ ext st st' w n, st.chunks.getD [] ≠ [] →
       (st.invoice.getD emptyInvoice).invoice_number = some n → n ≠ "" →
       persist_node ext st = .ok (st', w) →
       st'.vector_doc_id = some ("invoice_" ++ n)) ∧
    (∀ ext st st' w t, st.chunks.getD [] ≠ [] →
       pyTruthy (st.invoice.getD emptyInvoice).invoice_number = false →
       st.embedding_text = some t →
       persist_node ext st = .ok (st', w) →
       st'.vector_doc_id = some ("invoice_" ++ ext.md5hex t)) ∧
    (∀ n₁ n₂ : String, n₁ ≠ n₂ → "invoice_" ++ n₁ ≠ "invoice_" ++ n₂) := by
  refine ⟨?_, ?_, ?_⟩
  · intro ext st st' w n hch hn hne hok
    simp only [persist_node] at hok
    rw [isEmpty_false_of_ne hch] at hok
    simp only [Bool.false_eq_true, if_false] at hok
    rw [hn] at hok
    have hpt : pyTruthy (some n) = true := by simp [pyTruthy, hne]
    rw [if_pos hpt] at hok
    injection hok with hpair
    injection hpair with hst hw
    rw [← hst]
    simp
  · intro ext st st' w t hch hpt ht hok
    simp only [persist_node] at hok
    rw [isEmpty_false_of_ne hch] at hok
    simp only [Bool.false_eq_true, if_false] at hok
    rw [if_neg (by simp [hpt])] at hok
    rw [ht] at hok
    injection hok with hpair
    injection hpair with hst hw
    rw [← hst]
  · intro n₁ n₂ hne heq
    apply hne
    have hd := congrArg String.data heq
    simp only [String.data_append] at hd
    have := List.append_cancel_left hd
    exact congrArg String.mk this

/-- A state carrying chunks, a numbered invoice and a duplicate flag,
ready for the persist stage. -/
def stPersist : State :=
  { emptyState with
    chunks := some [{ page_content := "sample invoice text", metadata := [] }]
    invoice := some { emptyInvoice with invoice_number := some "INV-9" }
    is_duplicate := some false
    embedding_text := some "sample invoice text" }

/-- The persist-stage result at `stPersist`. -/
def stPersistRes : State × List Doc :=
  match persist_node extDemo stPersist with
  | .ok p => p
  | .error _ => (emptyState, [])

/-- C8 witness: concrete persist run with a numbered invoice, plus the
id-injectivity instance. -/
theorem vector_doc_id_spec_witness :
    stPersistRes.1.vector_doc_id = some ("invoice_" ++ "INV-9") ∧
    "invoice_" ++ "A" ≠ "invoice_" ++ "B" :=
  ⟨vector_doc_id_spec.1 extDemo stPersist stPersistRes.1 stPersistRes.2 "INV-9"
     (by decide) rfl (by decide) rfl,
   vector_doc_id_spec.2.2 "A" "B" (by decide)⟩

lemma risk_node_some (ext : Externals) (st : State) (resp : String)
    (hg : ext.genAnswer (riskPrompt ext st (pyAmount st.invoice)) [] = some resp) :
    risk_assessment_node ext st =
      { st with risk_level := some (riskParse resp).1,
                risk_analysis := some (riskParse resp).2,
                requires_approval := some (strIn (riskParse resp).1 ["MEDIUM", "HIGH"]) } := by
  simp [risk_assessment_node, hg]

lemma risk_node_none (ext : Externals) (st : State)
    (hg : ext.genAnswer (riskPrompt ext st (pyAmount st.invoice)) [] = none) :
    risk_assessment_node ext st =
      (let analysis := "Fallback assessment: Amount=$" ++ ext.fmtFloat (pyAmount st.invoice) ++
        ", Issues=" ++ toString (st.validation.getD emptyValidation).issues.length
      if pyAmount st.invoice > 10000 ∨
          0 < (st.validation.getD emptyValidation).issues.length then
        { st with risk_level := some "HIGH", requires_approval := some true,
                  risk_analysis := some analysis }
      else if pyAmount st.invoice > 1000 ∨
          (st.similar_invoices.getD []).length = 0 then
        { st with risk_level := some "MEDIUM", requires_approval := some true,
                  risk_analysis := some analysis }
      else
        { st with risk_level := some "LOW", requires_approval := some false,
                  risk_analysis := some analysis }) := by
  simp [risk_assessment_node, hg]

lemma escalation_node_some (ext : Externals) (st : State) (resp : String)
    (hg : ext.genAnswer (escalationPrompt st) [] = some resp) :
    escalation_decision_node ext st =
      { st with escalate_to_human := some ((escParse resp).1 == "YES"),
                escalation_reason := some (escParse resp).2.2,
                priority_level := some (escParse resp).2.1 } := by
  simp [escalation_decision_node, hg]

lemma escalation_node_none (ext : Externals) (st : State)
    (hg : ext.genAnswer (escalationPrompt st) [] = none) :
    escalation_decision_node ext st =
      { st with escalate_to_human := some (escalationFallbackCond st),
                escalation_reason := some ("Fallback: Risk=" ++ st.risk_level.getD "MEDIUM" ++
                  ", Action=" ++ st.next_action.getD "APPROVE" ++
                  ", Issues=" ++ toString (st.validation.getD emptyValidation).issues.length),
                priority_level := some (if escalationFallbackCond st then "HIGH" else "NORMAL") } := by
  simp [escalation_decision_node, hg]

lemma validate_node_frame (st : State) :
    (validate_node st).chunks = st.chunks ∧
    (validate_node st).embedding_text = st.embedding_text ∧
    (validate_node st).is_duplicate = st.is_duplicate ∧
    (validate_node st).persisted_chunks = st.persisted_chunks :=
  ⟨rfl, rfl, rfl, rfl⟩

lemma similar_node_frame (ext : Externals) (k : ℕ) (st : State) :
    (similar_node ext k st).chunks = st.chunks ∧
    (similar_node ext k st).embedding_text = st.embedding_text ∧
    (similar_node ext k st).persisted_chunks = st.persisted_chunks := by
  refine ⟨?_, ?_, ?_⟩ <;> (simp only [similar_node]; split <;> rfl)

lemma decision_node_frame (ext : Externals) (st : State) :
    (decision_node ext st).chunks = st.chunks ∧
    (decision_node ext st).embedding_text = st.embedding_text ∧
    (decision_node ext st).is_duplicate = st.is_duplicate ∧
    (decision_node ext st).persisted_chunks = st.persisted_chunks := by
  cases hg : ext.genAnswer (decisionPrompt st) [] with
  | some resp => rw [decision_node_some ext st resp hg]; exact ⟨rfl, rfl, rfl, rfl⟩
  | none =>
      rw [decision_node_none ext st hg]
      split_ifs <;> exact ⟨rfl, rfl, rfl, rfl⟩

lemma risk_node_frame (ext : Externals) (st : State) :
    (risk_assessment_node ext st).chunks = st.chunks ∧
    (risk_assessment_node ext st).embedding_text = st.embedding_text ∧
    (risk_assessment_node ext st).is_duplicate = st.is_duplicate ∧
    (risk_assessment_node ext st).persisted_chunks = st.persisted_chunks := by
  cases hg : ext.genAnswer (riskPrompt ext st (pyAmount st.invoice)) [] with
  | some resp => rw [risk_node_some ext st resp hg]; exact ⟨rfl, rfl, rfl, rfl⟩
  | none =>
      rw [risk_node_none ext st hg]
      dsimp only
      split_ifs <;> exact ⟨rfl, rfl, rfl, rfl⟩

lemma rag_node_frame (ext : Externals) (k : ℕ) (st : State) :
    (rag_node ext k st).is_duplicate = st.is_duplicate ∧
    (rag_node ext k st).persisted_chunks = st.persisted_chunks := by
  refine ⟨?_, ?_⟩ <;> (simp only [rag_node]; split <;> rfl)

lemma synth_node_frame (ext : Externals) (st : State) :
    (synth_node ext st).is_duplicate = st.is_duplicate ∧
    (synth_node ext st).persisted_chunks = st.persisted_chunks :=
  ⟨rfl, rfl⟩

lemma escalation_node_frame (ext : Externals) (st : State) :
    (escalation_decision_node ext st).is_duplicate = st.is_duplicate ∧
    (escalation_decision_node ext st).persisted_chunks = st.persisted_chunks := by
  cases hg : ext.genAnswer (escalationPrompt st) [] with
  | some resp => rw [escalation_node_some ext st resp hg]; exact ⟨rfl, rfl⟩
  | none => rw [escalation_node_none ext st hg]; exact ⟨rfl, rfl⟩

lemma persist_node_ok_is_dup (ext : Externals) (st st' : State) (w : List Doc)
    (hok : persist_node ext st = .ok (st', w)) :
    st'.is_duplicate = st.is_duplicate := by
  simp only [persist_node] at hok
  rcases hcl : (st.chunks.getD []).isEmpty with _ | _
  · rw [hcl] at hok
    simp only [Bool.false_eq_true, if_false] at hok
    split at hok
    · injection hok with hpair
      injection hpair with hst hw
      rw [← hst]
      split_ifs <;> rfl
    · split at hok
      · cases hok
      · injection hok with hpair
        injection hpair with hst hw
        rw [← hst]
        split_ifs <;> rfl
  · rw [hcl] at hok
    simp only [if_true] at hok
    injection hok with hpair
    injection hpair with hst hw
    rw [← hst]

lemma persist_node_dup_run (ext : Externals) (st st' : State) (w : List Doc)
    (hok : persist_node ext st = .ok (st', w))
    (hd : st.is_duplicate = some true) (hch : st.chunks.getD [] ≠ []) :
    w = [] ∧ st'.persisted_chunks = some 0 := by
  simp only [persist_node] at hok
  rw [isEmpty_false_of_ne hch] at hok
  simp only [Bool.false_eq_true, if_false, hd, Option.getD_some, if_true] at hok
  split at hok
  · injection hok with hpair
    injection hpair with hst hw
    rw [← hst, ← hw]
    exact ⟨rfl, rfl⟩
  · split at hok
    · cases hok
    · injection hok with hpair
      injection hpair with hst hw
      rw [← hst, ← hw]
      exact ⟨rfl, rfl⟩

lemma similar_node_dup_imp (ext : Externals) (k : ℕ) (st : State)
    (h : (similar_node ext k st).is_duplicate = some true) :
    (st.embedding_text.getD "" == "") = false := by
  simp only [similar_node] at h
  by_cases hc : (st.embedding_text.getD "" == "") = true
  · rw [if_pos hc] at h
    exact absurd h (by simp)
  · exact Bool.not_eq_true _ |>.mp hc

lemma run_workflow_unfold (ext : Externals) (bs : List ℕ) :
    run_workflow ext bs =
      match ocr_node ext (initState bs) with
      | .error e => .error e
      | .ok st1 =>
          match persist_node ext (risk_assessment_node ext (decision_node ext
              (similar_node ext 5 (embed_node ext (validate_node st1))))) with
          | .error e => .error e
          | .ok (st7, w) =>
              .ok (escalation_decision_node ext (synth_node ext (rag_node ext 5 st7)), w) := by
  unfold run_workflow
  simp only [stageOrder, runStages, runStage]
  cases ocr_node ext (initState bs) with
  | error e => rfl
  | ok st1 =>
      dsimp only
      cases persist_node ext (risk_assessment_node ext (decision_node ext
          (similar_node ext 5 (embed_node ext (validate_node st1))))) with
      | error e => rfl
      | ok p =>
          obtain ⟨st7, w⟩ := p
          simp

lemma embed_node_shape (ext : Externals) (st : State) :
    ∃ t, (embed_node ext st).embedding_text = some t ∧
         (embed_node ext st).chunks = some (ext.split t) :=
  ⟨_, rfl, rfl⟩

/-- C2: in every pipeline run whose final state is flagged duplicate,
nothing at all is handed to the similarity index for insertion,
`persisted_chunks` is set to 0, and duplicate detection strictly precedes
persistence in the fixed stage order.  The `hsplit` hypothesis is the
chunker contract (non-empty text yields at least one chunk), which the
langchain splitter satisfies. -/
theorem duplicate_never_persisted (ext : Externals) (bs : List ℕ)
    (st : State) (w : List Doc)
    (hsplit : ∀ s, s ≠ "" → ext.split s ≠ [])
    (hrun : run_workflow ext bs = .ok (st, w))
    (hdup : st.is_duplicate = some true) :
    w = [] ∧ st.persisted_chunks = some 0 ∧
    stageOrder.indexOf Stage.similar < stageOrder.indexOf Stage.persist := by
  rw [run_workflow_unfold] at hrun
  rcases hocr : ocr_node ext (initState bs) with e | st1
  · rw [hocr] at hrun
    simp at hrun
  · rw [hocr] at hrun
    dsimp only at hrun
    set stv := validate_node st1 with hstv
    set ste := embed_node ext stv with hste
    set sts := similar_node ext 5 ste with hsts
    set st6 := risk_assessment_node ext (decision_node ext sts) with hst6
    rcases hper : persist_node ext st6 with e | p
    · rw [hper] at hrun
      simp at hrun
    · obtain ⟨st7, w7⟩ := p
      rw [hper] at hrun
      simp only [Except.ok.injEq, Prod.mk.injEq] at hrun
      obtain ⟨hst, hw⟩ := hrun
      have h7dup : st7.is_duplicate = some true := by
        rw [← hst] at hdup
        rw [(escalation_node_frame ext (synth_node ext (rag_node ext 5 st7))).1,
          (synth_node_frame ext (rag_node ext 5 st7)).1,
          (rag_node_frame ext 5 st7).1] at hdup
        exact hdup
      have h6dup : st6.is_duplicate = some true := by
        rw [← persist_node_ok_is_dup ext st6 st7 w7 hper]
        exact h7dup
      have hsdup : sts.is_duplicate = some true := by
        rw [hst6, (risk_node_frame ext (decision_node ext sts)).2.2.1,
          (decision_node_frame ext sts).2.2.1] at h6dup
        exact h6dup
      obtain ⟨t, het, hcht⟩ := embed_node_shape ext stv
      rw [← hste] at het hcht
      have htext := similar_node_dup_imp ext 5 ste (by rw [← hsts]; exact hsdup)
      have htne : t ≠ "" := by
        rw [het] at htext
        simpa using htext
      have hc6 : st6.chunks = some (ext.split t) := by
        rw [hst6, (risk_node_frame ext (decision_node ext sts)).1,
          (decision_node_frame ext sts).1, hsts,
          (similar_node_frame ext 5 ste).1, hcht]
      have hch6 : st6.chunks.getD [] ≠ [] := by
        rw [hc6]
        simpa using hsplit t htne
      obtain ⟨hw7, hp7⟩ := persist_node_dup_run ext st6 st7 w7 hper h6dup hch6
      refine ⟨by rw [← hw, hw7], ?_, by decide⟩
      rw [← hst,
        (escalation_node_frame ext (synth_node ext (rag_node ext 5 st7))).2,
        (synth_node_frame ext (rag_node ext 5 st7)).2,
        (rag_node_frame ext 5 st7).2, hp7]

/-- The final state of the demo pipeline run (one stored exact-match
invoice, so the run is flagged duplicate). -/
def wState : State :=
  match run_workflow extDemo [1] with
  | .ok p => p.1
  | .error _ => emptyState

/-- The index writes of the demo pipeline run. -/
def wWrites : List Doc :=
  match run_workflow extDemo [1] with
  | .ok p => p.2
  | .error _ => []

/-- C2 witness: the demo run is a duplicate and persists nothing. -/
theorem duplicate_never_persisted_witness :
    wWrites = [] ∧ wState.persisted_chunks = some 0 ∧
    stageOrder.indexOf Stage.similar < stageOrder.indexOf Stage.persist :=
  duplicate_never_persisted extDemo [1] wState wWrites
    (fun s hs => by simp [extDemo]) (by rfl) (by rfl)

/-- A pre-parsed invoice record handed to the pipeline without raw bytes. -/
def stPreparsed : State :=
  { emptyState with
    invoice := some
      { emptyInvoice with
        invoice_number := some "INV-100"
        vendor := some "Acme"
        date := some "2024-01-01"
        total_amount := some "500" } }

/-- C9 counterexample: the stage sequence run on a state already holding
a pre-parsed invoice record — but no raw bytes — does not skip Extract:
it aborts with the Extract stage's error, so no second entry point
exists (`run_workflow`, the only entry point, takes raw bytes). -/
theorem preparsed_entry_counterexample :
    stPreparsed.invoice.isSome = true ∧
    runStages extDemo stageOrder stPreparsed =
      .error "ocr_node requires file_bytes in state" :=
  ⟨rfl, rfl⟩

/-- C9 amended: the orchestrator offers exactly one entry point, taking
raw bytes and always running Extract first; with absent or empty raw
bytes the pipeline errors at the Extract stage even when a pre-parsed
invoice record is present, and an extraction failure on the bytes path
surfaces as the run's error (Extract runs before every other stage). -/
theorem workflow_entry_spec :
    (∀ ext st, st.file_bytes = none ∨ st.file_bytes = some ([] : List ℕ) →
       runStages ext stageOrder st = .error "ocr_node requires file_bytes in state") ∧
    (∀ ext bs e, ext.extract bs = .error e → bs ≠ [] →
       run_workflow ext bs = .error e) := by
  constructor
  · intro ext st h
    rcases h with h | h <;>
      simp [runStages, stageOrder, runStage, ocr_node, h]
  · intro ext bs e hx hbs
    have hbe : bs.isEmpty = false := isEmpty_false_of_ne hbs
    simp [run_workflow, runStages, stageOrder, runStage, ocr_node, initState,
      hbe, hx, Except.map]

/-- An extractor that always fails. -/
def extFailExtract : Externals :=
  { extDemo with extract := fun _ => .error "no sheet" }

/-- C9 witness: instantiations of both conjuncts. -/
theorem workflow_entry_spec_witness :
    runStages extDemo stageOrder stPreparsed =
      .error "ocr_node requires file_bytes in state" ∧
    run_workflow extFailExtract [1] = .error "no sheet" :=
  ⟨workflow_entry_spec.1 extDemo stPreparsed (Or.inl rfl),
   workflow_entry_spec.2 extFailExtract [1] "no sheet" rfl (by decide)⟩

end InvoiceEngine
